import Mathlib

/-!
# Verification of the twitter-scraper collection-and-persistence pipeline

Shallow embedding of the core of the repository:

* `collectTweets`  — `TwitterPipeline.collectTweets` (src/twitter/TwitterPipeline.js),
  the deduplicating collector over a paginated source that may raise mid-iteration;
* `generateAnalytics` — `DataOrganizer.generateAnalytics` (src/twitter/DataOrganizer.js);
* `urlExists`, `saveTweets` — `LinkaceManager.urlExists` / `LinkaceManager.saveTweets`
  (src/twitter/LinkaceManager.js), the link-tracking sink;
* `run` — `TwitterPipeline.run`, the per-account pipeline.

Modelling conventions:

* JavaScript values that may be `undefined`/`null` are `Option`;
  the JS falsiness test `!x` on a string field is `isBlank` (`undefined`, `null`
  and `""` are falsy).
* Machine/JS numbers are `Nat`/`Int`/`ℚ`; the one place where the floating-point
  value `NaN` can arise (`0 / 0` in `averageLikes`) is modelled as `none` of an
  `Option ℚ` (`jsDiv`).
* `parseInt` on a missing value yields `NaN`, modelled as `none` (`parseIntOpt`).
* HTTP effects are passed in as explicit oracles: the Linkace search endpoint is a
  function `String → SearchOutcome`, the bulk-create endpoint outcome is a
  `BulkOutcome` value (axios delivers a response with some status, or throws).
-/

set_option autoImplicit false

namespace Scraper

/-- A tweet record as consumed by the pipeline.  Fields that the JS code reads
with a possible `undefined`/`null` are `Option`; `photos`/`videos`/`urls` only
ever appear as `t.photos?.length` etc., so they are embedded as their lengths
(`0` for an absent array, which gives the same truth value to `?.length > 0`). -/
structure Tweet where
  id : String
  username : Option String
  text : Option String
  permanentUrl : Option String
  timestamp : Option Int
  isReply : Bool
  isRetweet : Bool
  likes : Option Nat
  retweetCount : Option Nat
  replies : Option Nat
  photos : Nat
  videos : Nat
  urls : Nat
deriving DecidableEq, Repr

/-- JS falsiness of an optional string field: `!x` is true for `undefined`,
`null` and the empty string. -/
def isBlank : Option String → Bool
  | none => true
  | some s => s.isEmpty

/-- The numeric value of a decimal digit character, `none` otherwise. -/
def digitVal (c : Char) : Option Nat :=
  if 48 ≤ c.toNat ∧ c.toNat ≤ 57 then some (c.toNat - 48) else none

/-- Accumulate the longest digit prefix, as JS `parseInt` does. -/
def parseDigitsAcc : List Char → Nat → Nat
  | [], acc => acc
  | c :: cs, acc =>
      match digitVal c with
      | none => acc
      | some d => parseDigitsAcc cs (acc * 10 + d)

/-- The longest digit prefix of a character list, `none` (`NaN`) if it is empty. -/
def parseDigits : List Char → Option Nat
  | [] => none
  | c :: cs =>
      match digitVal c with
      | none => none
      | some d => some (parseDigitsAcc cs d)

/-- JS `parseInt(s, 10)`: an optional minus sign followed by the longest digit
prefix; `NaN` (no digit at all) is `none`. -/
def parseIntJS (s : String) : Option Int :=
  match s.toList with
  | '-' :: cs => (parseDigits cs).map (fun n => -(n : Int))
  | cs => (parseDigits cs).map (fun n => (n : Int))

/-- `parseInt(x, 10)` where `x` may be absent: `parseInt(undefined)` is `NaN`,
modelled as `none`; a configured string parses as `parseIntJS`
(`LinkaceManager.initialize` rejects a configured list id unless `parseInt`
succeeds on it, so only numeric ids reach use). -/
def parseIntOpt : Option String → Option Int
  | none => none
  | some s => parseIntJS s

/-! ## LinkaceManager (src/twitter/LinkaceManager.js) -/

/-- A link record returned by the Linkace search endpoint. -/
structure LinkRec where
  url : String
deriving DecidableEq, Repr

/-- Outcome of one `GET /api/v2/search/links` call: a response body with a
`data` array, or a thrown error (network/auth failure). -/
inductive SearchOutcome where
  | ok (data : List LinkRec)
  | err
deriving DecidableEq, Repr

/-- `LinkaceManager.urlExists` (LinkaceManager.js lines 101–128): queries the
search endpoint; on a response it reports whether some returned link has
exactly the queried URL; on a thrown error it logs and returns `false`
("assume it doesn't exist to allow save attempt"). -/
def urlExists (search : String → SearchOutcome) (url : String) : Bool :=
  match search url with
  | .ok data => !data.isEmpty && data.any (fun link => link.url = url)
  | .err => false

/-- The payload pushed onto `linksToCreate` for one surviving tweet
(LinkaceManager.js lines 168–175).  The `lists` field is `Option` so that an
omitted field would be `none`; the source always supplies it, as
`[parseInt(this.linkaceListId, 10)]`, whose entry is `NaN` (`none`) when no
list id is configured. -/
structure LinkPayload where
  url : String
  title : String
  description : String
  tags : List String
  visibility : Nat
  lists : Option (List (Option Int))
deriving DecidableEq, Repr

/-- Payload construction for one tweet that passed the missing-data and
existence filters (LinkaceManager.js lines 165–175). -/
def mkPayload (listId : Option String) (handle : String) (t : Tweet) : LinkPayload :=
  let text := t.text.getD ""
  let shortDescription := if text.length > 50 then (text.take 47) ++ "..." else text
  { url := t.permanentUrl.getD ""
    title := (t.username.getD "") ++ ": " ++ shortDescription
    description := text
    tags := ["source_twitter", "username_" ++ handle, "inject_scraper"]
    visibility := 2
    lists := some [parseIntOpt listId] }

/-- Accumulator of the per-tweet filtering loop in `LinkaceManager.saveTweets`
(lines 147–176): the links to create plus the two skip counters. -/
structure ClassifyState where
  links : List LinkPayload
  skippedMissingData : Nat
  skippedExisting : Nat
deriving DecidableEq, Repr

/-- One iteration of the `for (const tweet of tweets)` loop of
`LinkaceManager.saveTweets` (lines 151–176). -/
def classifyStep (search : String → SearchOutcome) (listId : Option String)
    (handle : String) (st : ClassifyState) (t : Tweet) : ClassifyState :=
  if isBlank t.permanentUrl || isBlank t.text || isBlank t.username then
    { st with skippedMissingData := st.skippedMissingData + 1 }
  else if urlExists search (t.permanentUrl.getD "") then
    { st with skippedExisting := st.skippedExisting + 1 }
  else
    { st with links := st.links ++ [mkPayload listId handle t] }

/-- The whole filtering loop of `LinkaceManager.saveTweets`. -/
def classifyTweets (search : String → SearchOutcome) (listId : Option String)
    (handle : String) (tweets : List Tweet) : ClassifyState :=
  tweets.foldl (classifyStep search listId handle) ⟨[], 0, 0⟩

/-- Outcome of the one `POST /api/v2/bulk/links` call: axios either resolves
with a response carrying some status, or throws (which it also does, by its
default `validateStatus`, for non-2xx statuses). -/
inductive BulkOutcome where
  | response (status : Nat)
  | exn
deriving DecidableEq, Repr

/-- The four counts `LinkaceManager.saveTweets` reports (lines 215–219):
`successfulSaves`, `failedSaves`, `skippedForMissingData`, `skippedAsExisting`. -/
structure Report where
  created : Nat
  failed : Nat
  skippedMissingData : Nat
  skippedExisting : Nat
deriving DecidableEq, Repr

/-- `LinkaceManager.saveTweets` (lines 135–227): early return on an empty
input; classify each tweet (skip on missing data, skip on existing URL,
otherwise build a payload); early return if nothing survives; otherwise one
bulk POST — status 201 counts the whole batch as created, any other delivered
status or a thrown error counts the whole batch as failed. -/
def saveTweets (search : String → SearchOutcome) (bulk : BulkOutcome)
    (listId : Option String) (handle : String) (tweets : List Tweet) : Report :=
  if tweets.isEmpty then ⟨0, 0, 0, 0⟩
  else
    let st := classifyTweets search listId handle tweets
    if st.links.isEmpty then ⟨0, 0, st.skippedMissingData, st.skippedExisting⟩
    else
      match bulk with
      | .response status =>
          if status = 201 then
            ⟨st.links.length, 0, st.skippedMissingData, st.skippedExisting⟩
          else
            ⟨0, st.links.length, st.skippedMissingData, st.skippedExisting⟩
      | .exn => ⟨0, st.links.length, st.skippedMissingData, st.skippedExisting⟩

/-! ## Collector (TwitterPipeline.collectTweets, TwitterPipeline.js lines 48–73) -/

/-- One event yielded while iterating the paginated `searchTweets` sequence:
either the next tweet, or an exception raised mid-iteration (which ends the
`for await` loop and is handled by the surrounding `catch`). -/
inductive Event where
  | item (t : Tweet)
  | err
deriving DecidableEq, Repr

/-- `tweets.set(tweet.id, tweet)` on a JS `Map`, embedded as an insertion-ordered
association list: an existing key keeps its position and has its value
overwritten; a new key is appended. -/
def mapInsert (m : List (String × Tweet)) (t : Tweet) : List (String × Tweet) :=
  if m.any (fun p => p.1 = t.id) then
    m.map (fun p => if p.1 = t.id then (p.1, t) else p)
  else
    m ++ [(t.id, t)]

/-- The `for await (const tweet of searchResults)` loop of `collectTweets`:
inserts each yielded tweet into the map; an exception ends the loop (the
`catch` only logs), leaving the map accumulated so far. -/
def collectLoop : List Event → List (String × Tweet) → List (String × Tweet)
  | [], m => m
  | .err :: _, m => m
  | .item t :: rest, m => collectLoop rest (mapInsert m t)

/-- `TwitterPipeline.collectTweets`: run the loop from an empty map and return
`Array.from(tweets.values())` — the values in key-insertion order. -/
def collectTweets (events : List Event) : List Tweet :=
  (collectLoop events []).map Prod.snd

/-- The items actually consumed from the sequence: everything yielded before
the first raised exception. -/
def consumedTweets : List Event → List Tweet
  | [] => []
  | .err :: _ => []
  | .item t :: rest => t :: consumedTweets rest

/-- Specification-side definition (from the claim's words, for comparison with
the source-derived `collectTweets`): the ids of a list in the order of each
id's first occurrence. -/
def firstSeenIds : List String → List String
  | [] => []
  | i :: rest => i :: (firstSeenIds rest).filter (fun j => j ≠ i)

/-- The last element of `ts` carrying id `i`, if any. -/
def lastWithId (ts : List Tweet) (i : String) : Option Tweet :=
  (ts.filter (fun t => t.id = i)).getLast?

/-! ## Analytics (DataOrganizer.generateAnalytics, DataOrganizer.js lines 175–268) -/

/-- JS floating-point division as it occurs in `averageLikes`: numerator a sum
of naturals, denominator a count.  When the denominator is `0` the JS result is
`NaN` (`0/0`), modelled as `none`; otherwise the exact rational (the source
additionally renders it with `toFixed(2)`, a display concern). -/
def jsDiv (a : ℚ) (b : ℚ) : Option ℚ :=
  if b = 0 then none else some (a / b)

/-- One entry of `engagement.topTweets` (DataOrganizer.js lines 243–249). -/
structure TopTweet where
  id : String
  text : String
  likes : Option Nat
  retweetCount : Option Nat
  url : Option String
deriving DecidableEq, Repr

/-- The `engagement` sub-object of the analytics (DataOrganizer.js lines 223–250). -/
structure Engagement where
  totalLikes : Nat
  totalRetweetCount : Nat
  totalReplies : Nat
  averageLikes : Option ℚ
  topTweets : List TopTweet
deriving DecidableEq, Repr

/-- The `timeRange` sub-object; `none` renders as the sentinel `"N/A"`
(date formatting itself is external plumbing). -/
structure TimeRange where
  start : Option Int
  stop : Option Int
deriving DecidableEq, Repr

/-- The `contentTypes` sub-object (DataOrganizer.js lines 259–266). -/
structure ContentTypes where
  withImages : Nat
  withVideos : Nat
  withLinks : Nat
  textOnly : Nat
deriving DecidableEq, Repr

/-- The analytics value object (DataOrganizer.js lines 218–267). -/
structure Analytics where
  totalTweets : Nat
  directTweets : Nat
  replies : Nat
  retweets : Nat
  engagement : Engagement
  timeRange : TimeRange
  contentTypes : ContentTypes
deriving DecidableEq, Repr

/-- `DataOrganizer.generateAnalytics`.  An empty input returns the fixed
zero-value shape (lines 176–201, `averageLikes: '0.00'`).  Otherwise the
aggregates are taken over `tweetsForEngagement = tweets.filter(t => !t.isRetweet)`;
`averageLikes` is the JS division `sum / tweetsForEngagement.length`
(`NaN`, i.e. `none`, when that filter is empty); `topTweets` sorts the
engagement tweets descending by likes (JS `Array.sort` is stable) and takes 5;
the time range is the least/greatest non-null timestamp. -/
def generateAnalytics (tweets : List Tweet) : Analytics :=
  if tweets.isEmpty then
    { totalTweets := 0, directTweets := 0, replies := 0, retweets := 0
      engagement :=
        { totalLikes := 0, totalRetweetCount := 0, totalReplies := 0
          averageLikes := some 0, topTweets := [] }
      timeRange := { start := none, stop := none }
      contentTypes := { withImages := 0, withVideos := 0, withLinks := 0, textOnly := 0 } }
  else
    let validDates :=
      ((tweets.filter (fun t => t.timestamp ≠ none)).map (fun t => t.timestamp.getD 0)).mergeSort
        (fun a b => a ≤ b)
    let tweetsForEngagement := tweets.filter (fun t => !t.isRetweet)
    let likesSum := (tweetsForEngagement.map (fun t => t.likes.getD 0)).sum
    { totalTweets := tweets.length
      directTweets := (tweets.filter (fun t => !t.isReply && !t.isRetweet)).length
      replies := (tweets.filter (fun t => t.isReply)).length
      retweets := (tweets.filter (fun t => t.isRetweet)).length
      engagement :=
        { totalLikes := likesSum
          totalRetweetCount := (tweetsForEngagement.map (fun t => t.retweetCount.getD 0)).sum
          totalReplies := (tweetsForEngagement.map (fun t => t.replies.getD 0)).sum
          averageLikes := jsDiv (likesSum : ℚ) (tweetsForEngagement.length : ℚ)
          topTweets :=
            ((tweetsForEngagement.mergeSort
                  (fun a b => b.likes.getD 0 ≤ a.likes.getD 0)).take 5).map
              (fun t =>
                { id := t.id, text := (t.text.getD "").take 100, likes := t.likes
                  retweetCount := t.retweetCount, url := t.permanentUrl }) }
      timeRange := { start := validDates.head?, stop := validDates.getLast? }
      contentTypes :=
        { withImages := (tweets.filter (fun t => t.photos > 0)).length
          withVideos := (tweets.filter (fun t => t.videos > 0)).length
          withLinks := (tweets.filter (fun t => t.urls > 0)).length
          textOnly :=
            (tweets.filter (fun t => t.photos = 0 && t.videos = 0 && t.urls = 0)).length } }

/-! ## Per-account pipeline (TwitterPipeline.run, TwitterPipeline.js lines 93–104) -/

/-- The three persistence sinks the repository defines: `DataOrganizer`
(file exporter), `DatabaseManager` (relational sink), `LinkaceManager`
(link-tracking sink). -/
inductive SinkKind where
  | fileExporter
  | relationalSink
  | linkTrackingSink
deriving DecidableEq, Repr

/-- Terminal outcome of one `run()`: the `Pipeline completed` success log, or
the `catch` branch's `Pipeline failed` log (the error is not re-thrown). -/
inductive RunOutcome where
  | completed
  | failed
deriving DecidableEq, Repr

/-- `TwitterPipeline.processAndSaveTweets` (lines 79–88): returns early when no
tweets were collected; otherwise invokes `this.dataOrganizer.saveTweets` — the
file exporter, the only sink this method calls.  `DataOrganizer.saveTweets`
catches a write error, logs it and re-throws (DataOrganizer.js lines 164–167),
so its outcome `fileSink` propagates to the caller.  The returned list records
which sinks were invoked. -/
def processAndSaveTweets (fileSink : Except String Unit) (tweets : List Tweet) :
    List SinkKind × Except String Unit :=
  if tweets.length = 0 then ([], .ok ())
  else ([.fileExporter], fileSink)

/-- `TwitterPipeline.run`: verify the session (throwing if invalid), collect
(never throws), process-and-save; any thrown error lands in the `catch`, which
logs `Pipeline failed` — otherwise the success log `Pipeline completed` is
reached. -/
def run (sessionValid : Bool) (fileSink : Except String Unit) (events : List Event) :
    List SinkKind × RunOutcome :=
  if !sessionValid then ([], .failed)
  else
    let tweets := collectTweets events
    let step := processAndSaveTweets fileSink tweets
    match step.2 with
    | .ok _ => (step.1, .completed)
    | .error _ => (step.1, .failed)

/-! ## Concrete sample data (used by witnesses and counterexamples) -/

/-- A complete, original (non-retweet) tweet. -/
def tA : Tweet :=
  { id := "1", username := some "alice", text := some "hello world"
    permanentUrl := some "https://x.com/alice/status/1", timestamp := some 100
    isReply := false, isRetweet := false, likes := some 10, retweetCount := some 2
    replies := some 1, photos := 0, videos := 0, urls := 0 }

/-- A second tweet with the same id as `tA` but different content. -/
def tB : Tweet :=
  { id := "1", username := some "alice", text := some "edited"
    permanentUrl := some "https://x.com/alice/status/1b", timestamp := some 200
    isReply := false, isRetweet := false, likes := some 3, retweetCount := some 0
    replies := some 0, photos := 0, videos := 0, urls := 0 }

/-- A tweet with a fresh id. -/
def tC : Tweet :=
  { id := "2", username := some "alice", text := some "second"
    permanentUrl := some "https://x.com/alice/status/2", timestamp := some 300
    isReply := false, isRetweet := false, likes := some 7, retweetCount := some 0
    replies := some 0, photos := 0, videos := 0, urls := 0 }

/-- A retweet carrying likes. -/
def tR : Tweet :=
  { id := "3", username := some "alice", text := some "rt"
    permanentUrl := some "https://x.com/alice/status/3", timestamp := some 400
    isReply := false, isRetweet := true, likes := some 5, retweetCount := some 9
    replies := some 0, photos := 0, videos := 0, urls := 0 }

/-- A search oracle whose every query raises (network failure). -/
def searchAllErr : String → SearchOutcome := fun _ => .err

/-- A search oracle that finds nothing (empty result set for every query). -/
def searchAllEmpty : String → SearchOutcome := fun _ => .ok []

/-! ## Theorems about the LinkTrackingSink (LinkaceManager) -/

theorem classify_counts (search : String → SearchOutcome) (listId : Option String)
    (handle : String) (tweets : List Tweet) (st : ClassifyState) :
    (tweets.foldl (classifyStep search listId handle) st).links.length
      + (tweets.foldl (classifyStep search listId handle) st).skippedMissingData
      + (tweets.foldl (classifyStep search listId handle) st).skippedExisting
      = st.links.length + st.skippedMissingData + st.skippedExisting + tweets.length := by
  induction tweets generalizing st with
  | nil => simp
  | cons t rest ih =>
    simp only [List.foldl_cons]
    rw [ih]
    unfold classifyStep
    split_ifs <;> simp <;> omega

/-- C1: for every input list of posts passed to `LinkaceManager.saveTweets`
(including the empty list) and every behaviour of the search and bulk-create
endpoints, the four reported counts `created`, `failed`, `skippedMissingData`,
`skippedExisting` sum exactly to the number of input posts. -/
theorem linkace_report_counts_sum (search : String → SearchOutcome) (bulk : BulkOutcome)
    (listId : Option String) (handle : String) (tweets : List Tweet) :
    (saveTweets search bulk listId handle tweets).created
      + (saveTweets search bulk listId handle tweets).failed
      + (saveTweets search bulk listId handle tweets).skippedMissingData
      + (saveTweets search bulk listId handle tweets).skippedExisting
      = tweets.length := by
  have h := classify_counts search listId handle tweets ⟨[], 0, 0⟩
  simp only [List.length_nil] at h
  unfold saveTweets
  split_ifs with hemp
  · simp [List.isEmpty_iff.mp hemp]
  · simp only [classifyTweets] at *
    set st := tweets.foldl (classifyStep search listId handle) ⟨[], 0, 0⟩ with hst
    by_cases hl : st.links.isEmpty
    · have : st.links.length = 0 := by simp [List.isEmpty_iff.mp hl]
      simp [hl]
      omega
    · simp only [hl, if_false]
      cases bulk with
      | response status =>
        by_cases h201 : status = 201 <;> simp [h201] <;> omega
      | exn => simp; omega

theorem links_mono (search : String → SearchOutcome) (listId : Option String)
    (handle : String) (tweets : List Tweet) (st : ClassifyState) (p : LinkPayload)
    (hp : p ∈ st.links) :
    p ∈ (tweets.foldl (classifyStep search listId handle) st).links := by
  induction tweets generalizing st with
  | nil => simpa using hp
  | cons t rest ih =>
    simp only [List.foldl_cons]
    apply ih
    unfold classifyStep
    split_ifs <;> simp [hp]

theorem mem_links_of_complete (search : String → SearchOutcome) (listId : Option String)
    (handle : String) (tweets : List Tweet) (st : ClassifyState) (t : Tweet)
    (hmem : t ∈ tweets)
    (hu : isBlank t.permanentUrl = false) (ht : isBlank t.text = false)
    (hn : isBlank t.username = false)
    (hex : urlExists search (t.permanentUrl.getD "") = false) :
    mkPayload listId handle t ∈ (tweets.foldl (classifyStep search listId handle) st).links := by
  induction tweets generalizing st with
  | nil => cases hmem
  | cons t0 rest ih =>
    simp only [List.foldl_cons]
    rcases List.mem_cons.mp hmem with rfl | hmem'
    · apply links_mono
      unfold classifyStep
      simp [hu, ht, hn, hex]
    · exact ih _ hmem'

/-- C7: if the remote existence check's query raises (network/auth failure),
`urlExists` returns `false` rather than raising, and a data-complete post whose
check failed that way proceeds to submission: its payload is in the
`linksToCreate` batch. -/
theorem urlexists_fail_open (search : String → SearchOutcome) (url : String)
    (h : search url = .err) (listId : Option String) (handle : String)
    (t : Tweet) (tweets : List Tweet) (hmem : t ∈ tweets)
    (hurl : t.permanentUrl = some url)
    (hu : isBlank t.permanentUrl = false) (ht : isBlank t.text = false)
    (hn : isBlank t.username = false) :
    urlExists search url = false
      ∧ mkPayload listId handle t ∈ (classifyTweets search listId handle tweets).links := by
  have hfalse : urlExists search url = false := by
    unfold urlExists
    rw [h]
  refine ⟨hfalse, ?_⟩
  apply mem_links_of_complete search listId handle tweets _ t hmem hu ht hn
  rw [hurl]
  simpa using hfalse

/-- Witness for `urlexists_fail_open`: a concrete complete tweet whose
existence query raises is queued for creation. -/
theorem urlexists_fail_open_witness :
    urlExists searchAllErr "https://x.com/alice/status/1" = false
      ∧ mkPayload none "alice" tA ∈ (classifyTweets searchAllErr none "alice" [tA]).links :=
  urlexists_fail_open searchAllErr "https://x.com/alice/status/1" rfl none "alice" tA [tA]
    (by simp [tA]) rfl (by decide) (by decide) (by decide)

theorem saveTweets_created_eq (search : String → SearchOutcome) (bulk : BulkOutcome)
    (listId : Option String) (handle : String) (tweets : List Tweet) :
    (saveTweets search bulk listId handle tweets).created =
      if (classifyTweets search listId handle tweets).links.isEmpty then 0
      else
        match bulk with
        | .response s =>
            if s = 201 then (classifyTweets search listId handle tweets).links.length else 0
        | .exn => 0 := by
  by_cases hemp : tweets.isEmpty
  · have h0 : tweets = [] := List.isEmpty_iff.mp hemp
    subst h0
    cases bulk <;> simp [saveTweets, classifyTweets]
  · by_cases hl : (classifyTweets search listId handle tweets).links.isEmpty
    · cases bulk <;> simp [saveTweets, classifyTweets, hemp, hl] <;>
        simp [classifyTweets] at hl <;> simp [hl]
    · cases bulk with
      | response s =>
        by_cases h201 : s = 201 <;>
          simp [saveTweets, classifyTweets, hemp, h201] <;>
          simp [classifyTweets] at hl <;> simp [hl]
      | exn =>
        simp [saveTweets, classifyTweets, hemp]
        simp [classifyTweets] at hl
        simp [hl]

theorem saveTweets_failed_eq (search : String → SearchOutcome) (bulk : BulkOutcome)
    (listId : Option String) (handle : String) (tweets : List Tweet) :
    (saveTweets search bulk listId handle tweets).failed =
      if (classifyTweets search listId handle tweets).links.isEmpty then 0
      else
        match bulk with
        | .response s =>
            if s = 201 then 0 else (classifyTweets search listId handle tweets).links.length
        | .exn => (classifyTweets search listId handle tweets).links.length := by
  by_cases hemp : tweets.isEmpty
  · have h0 : tweets = [] := List.isEmpty_iff.mp hemp
    subst h0
    cases bulk <;> simp [saveTweets, classifyTweets]
  · by_cases hl : (classifyTweets search listId handle tweets).links.isEmpty
    · cases bulk <;> simp [saveTweets, classifyTweets, hemp, hl] <;>
        simp [classifyTweets] at hl <;> simp [hl]
    · cases bulk with
      | response s =>
        by_cases h201 : s = 201 <;>
          simp [saveTweets, classifyTweets, hemp, h201] <;>
          simp [classifyTweets] at hl <;> simp [hl]
      | exn =>
        simp [saveTweets, classifyTweets, hemp]
        simp [classifyTweets] at hl
        simp [hl]

/-- C8: the bulk submission is all-or-nothing: a thrown error or any delivered
non-2xx status counts every item of the submitted batch as failed, and the
success response (201 Created) counts every item as created. -/
theorem linkace_bulk_all_or_nothing (search : String → SearchOutcome) (bulk : BulkOutcome)
    (listId : Option String) (handle : String) (tweets : List Tweet) :
    ((bulk = .exn ∨ ∃ s, bulk = .response s ∧ ¬(200 ≤ s ∧ s ≤ 299)) →
        (saveTweets search bulk listId handle tweets).failed
            = (classifyTweets search listId handle tweets).links.length
          ∧ (saveTweets search bulk listId handle tweets).created = 0)
      ∧ (bulk = .response 201 →
        (saveTweets search bulk listId handle tweets).created
            = (classifyTweets search listId handle tweets).links.length
          ∧ (saveTweets search bulk listId handle tweets).failed = 0) := by
  constructor
  · rintro (rfl | ⟨s, rfl, hs⟩)
    · rw [saveTweets_failed_eq, saveTweets_created_eq]
      by_cases hl : (classifyTweets search listId handle tweets).links.isEmpty
      · simp [hl, List.isEmpty_iff.mp hl]
      · simp [hl]
    · have h201 : s ≠ 201 := by omega
      rw [saveTweets_failed_eq, saveTweets_created_eq]
      by_cases hl : (classifyTweets search listId handle tweets).links.isEmpty
      · simp [hl, List.isEmpty_iff.mp hl]
      · simp [hl, h201]
  · rintro rfl
    rw [saveTweets_created_eq, saveTweets_failed_eq]
    by_cases hl : (classifyTweets search listId handle tweets).links.isEmpty
    · simp [hl, List.isEmpty_iff.mp hl]
    · simp [hl]

/-- Witness for `linkace_bulk_all_or_nothing`: a thrown bulk call marks both
tweets of a concrete two-element batch as failed. -/
theorem linkace_bulk_all_or_nothing_witness :
    (saveTweets searchAllEmpty .exn (some "7") "alice" [tA, tC]).failed = 2
      ∧ (saveTweets searchAllEmpty .exn (some "7") "alice" [tA, tC]).created = 0 := by
  have h :=
    (linkace_bulk_all_or_nothing searchAllEmpty .exn (some "7") "alice" [tA, tC]).1
      (Or.inl rfl)
  have hlen : (classifyTweets searchAllEmpty (some "7") "alice" [tA, tC]).links.length = 2 := by
    rfl
  exact ⟨hlen ▸ h.1, h.2⟩

/-- C10: the batch is counted as created only on HTTP status exactly 201; any
other delivered status — including the 2xx successes 200 and 202 — counts every
item of the batch as failed. -/
theorem linkace_created_only_201 (search : String → SearchOutcome) (listId : Option String)
    (handle : String) (tweets : List Tweet) (s : Nat) :
    (s ≠ 201 →
        (saveTweets search (.response s) listId handle tweets).created = 0
          ∧ (saveTweets search (.response s) listId handle tweets).failed
              = (classifyTweets search listId handle tweets).links.length)
      ∧ (s = 201 →
        (saveTweets search (.response s) listId handle tweets).created
            = (classifyTweets search listId handle tweets).links.length
          ∧ (saveTweets search (.response s) listId handle tweets).failed = 0) := by
  constructor
  · intro hs
    rw [saveTweets_created_eq, saveTweets_failed_eq]
    by_cases hl : (classifyTweets search listId handle tweets).links.isEmpty
    · simp [hl, List.isEmpty_iff.mp hl]
    · simp [hl, hs]
  · rintro rfl
    rw [saveTweets_created_eq, saveTweets_failed_eq]
    by_cases hl : (classifyTweets search listId handle tweets).links.isEmpty
    · simp [hl, List.isEmpty_iff.mp hl]
    · simp [hl]

/-- Witness for `linkace_created_only_201`: a delivered 200 OK on a concrete
one-element batch counts it as failed, not created. -/
theorem linkace_created_only_201_witness :
    (saveTweets searchAllEmpty (.response 200) (some "7") "alice" [tA]).created = 0
      ∧ (saveTweets searchAllEmpty (.response 200) (some "7") "alice" [tA]).failed = 1 := by
  have h :=
    (linkace_created_only_201 searchAllEmpty (some "7") "alice" [tA] 200).1 (by decide)
  have hlen : (classifyTweets searchAllEmpty (some "7") "alice" [tA]).links.length = 1 := by
    rfl
  exact ⟨h.1, hlen ▸ h.2⟩

/-- C9 (code bug): with no configured list id, the payload still carries a
`lists` field — holding the `NaN` result of `parseInt(undefined, 10)` — instead
of omitting it, contradicting the initialize-time log "Links will not be added
to a list"; with a configured list id the field is the singleton of that id, as
claimed. -/
theorem linkace_lists_field_not_omitted :
    (mkPayload none "alice" tA).lists = some [none]
      ∧ (mkPayload none "alice" tA).lists ≠ none
      ∧ (mkPayload (some "7") "alice" tA).lists = some [some 7] := by
  refine ⟨rfl, by simp [mkPayload], ?_⟩
  rfl

/-! ## Theorems about the AnalyticsEngine (DataOrganizer.generateAnalytics) -/

/-- C5 (code bug): `generateAnalytics` divides the likes sum by the number of
non-retweet posts without guarding against an empty non-retweet set, so a
non-empty input consisting entirely of retweets yields `averageLikes = NaN`
(the JS `0 / 0`, modelled `none`), not the claimed 0; the empty input returns
the zero-value shape (`'0.00'`), and a non-degenerate input the exact mean. -/
theorem analytics_averageLikes_nan_on_all_retweets :
    (generateAnalytics [tR]).engagement.averageLikes = none
      ∧ (generateAnalytics [tR]).engagement.averageLikes ≠ some 0
      ∧ (generateAnalytics []).engagement.averageLikes = some 0
      ∧ (generateAnalytics [tA]).engagement.averageLikes = some 10 := by
  refine ⟨rfl, by simp [generateAnalytics, tR, jsDiv], rfl, ?_⟩
  norm_num [generateAnalytics, tA, jsDiv]

/-! ## Theorems about the Collector (TwitterPipeline.collectTweets) -/

theorem collectLoop_stops_at_err (pre post : List Event) (m : List (String × Tweet))
    (h : Event.err ∉ pre) :
    collectLoop (pre ++ Event.err :: post) m = collectLoop pre m := by
  induction pre generalizing m with
  | nil => rfl
  | cons e rest ih =>
    cases e with
    | err => exact absurd (List.mem_cons_self _ _) h
    | item t =>
        simp only [List.cons_append, collectLoop]
        exact ih _ (fun hm => h (List.mem_cons_of_mem _ hm))

/-- C4: if the paginated sequence raises after some prefix of items, the
collector does not propagate the exception — it returns exactly the
deduplicated posts accumulated from that prefix (and, being a total function,
never raises for any sequence behaviour). -/
theorem collect_error_soft_failure (pre post : List Event) (h : Event.err ∉ pre) :
    collectTweets (pre ++ Event.err :: post) = collectTweets pre := by
  unfold collectTweets
  rw [collectLoop_stops_at_err pre post [] h]

/-- Witness for `collect_error_soft_failure`: a sequence raising after one
item yields that one item, ignoring the items after the exception. -/
theorem collect_error_soft_failure_witness :
    collectTweets ([Event.item tA] ++ Event.err :: [Event.item tC]) = collectTweets [Event.item tA]
      ∧ collectTweets [Event.item tA] = [tA] :=
  ⟨collect_error_soft_failure [Event.item tA] [Event.item tC] (by decide), by decide⟩

/-! ## Theorems about the per-account pipeline (TwitterPipeline.run) -/

/-- C2 is false of the code: with a valid session, one collected tweet and a
file-sink write error, the run invokes no sink other than the file exporter —
in particular never the LinkTrackingSink — and ends in the failed branch, not
`Done`, although Collecting succeeded and a sink merely failed. -/
theorem pipeline_persist_cex :
    SinkKind.linkTrackingSink ∉ (run true (.error "disk full") [.item tA]).1
      ∧ (run true (.error "disk full") [.item tA]).2 ≠ .completed := by
  decide

/-- C2 (amended): the per-account run persists through the file exporter only —
`processAndSaveTweets` calls just `dataOrganizer.saveTweets`, never the
relational or link-tracking sink — and while a file-sink error is caught and
logged (run itself never raises), such an error sends the run to the failed
branch instead of completion. -/
theorem pipeline_persist_amended (sessionValid : Bool) (fileSink : Except String Unit)
    (events : List Event) :
    ((run sessionValid fileSink events).1 = []
        ∨ (run sessionValid fileSink events).1 = [SinkKind.fileExporter])
      ∧ (∀ msg, sessionValid = true → fileSink = .error msg →
          (collectTweets events).length ≠ 0 →
          (run sessionValid fileSink events).2 = .failed) := by
  constructor
  · unfold run processAndSaveTweets
    cases sessionValid with
    | false => simp
    | true =>
      by_cases hl : (collectTweets events).length = 0
      · simp [hl]
      · cases fileSink <;> simp [hl]
  · intro msg hs hsink hlen
    subst hs
    subst hsink
    unfold run processAndSaveTweets
    simp [hlen]

/-- Witness for `pipeline_persist_amended`: a concrete failed file write on a
one-tweet run ends in the failed branch, with only the file exporter invoked. -/
theorem pipeline_persist_amended_witness :
    (run true (.error "disk") [.item tA]).2 = .failed
      ∧ ((run true (.error "disk") [.item tA]).1 = []
          ∨ (run true (.error "disk") [.item tA]).1 = [SinkKind.fileExporter]) :=
  ⟨(pipeline_persist_amended true (.error "disk") [.item tA]).2 "disk" rfl rfl (by decide),
    (pipeline_persist_amended true (.error "disk") [.item tA]).1⟩

/-! ### Structural lemmas about the JS-Map embedding -/

theorem any_key_iff (m : List (String × Tweet)) (i : String) :
    (m.any (fun p => p.1 = i)) = true ↔ i ∈ m.map Prod.fst := by
  simp only [List.any_eq_true, List.mem_map, decide_eq_true_eq]

theorem keys_mapInsert (m : List (String × Tweet)) (t : Tweet) :
    (mapInsert m t).map Prod.fst =
      if t.id ∈ m.map Prod.fst then m.map Prod.fst else m.map Prod.fst ++ [t.id] := by
  unfold mapInsert
  by_cases h : t.id ∈ m.map Prod.fst
  · rw [if_pos ((any_key_iff m t.id).mpr h), if_pos h, List.map_map]
    apply List.map_congr_left
    intro p _
    by_cases hp : p.1 = t.id <;> simp [hp]
  · rw [if_neg (fun hc => h ((any_key_iff m t.id).mp hc)), if_neg h]
    simp

theorem length_mapInsert (m : List (String × Tweet)) (t : Tweet) :
    (mapInsert m t).length ≤ m.length + 1 := by
  unfold mapInsert
  split_ifs <;> simp

theorem snd_id_mapInsert (m : List (String × Tweet)) (t : Tweet)
    (h : ∀ p ∈ m, (Prod.snd p).id = p.1) :
    ∀ p ∈ mapInsert m t, (Prod.snd p).id = p.1 := by
  intro p hp
  unfold mapInsert at hp
  split_ifs at hp with hc
  · rcases List.mem_map.mp hp with ⟨q, hq, rfl⟩
    by_cases hqt : q.1 = t.id
    · simp [hqt]
    · simpa [hqt] using h q hq
  · rcases List.mem_append.mp hp with hm | hone
    · exact h p hm
    · simp at hone
      simp [hone]

theorem mem_mapInsert (m : List (String × Tweet)) (t : Tweet) (p : String × Tweet)
    (hp : p ∈ mapInsert m t) :
    (p.1 = t.id ∧ p.2 = t) ∨ (p.1 ≠ t.id ∧ p ∈ m) := by
  unfold mapInsert at hp
  split_ifs at hp with hc
  · rcases List.mem_map.mp hp with ⟨q, hq, rfl⟩
    by_cases hqt : q.1 = t.id
    · left
      simp [hqt]
    · right
      simpa [hqt] using hq
  · rcases List.mem_append.mp hp with hm | hone
    · right
      refine ⟨fun he => ?_, hm⟩
      exact hc (List.any_eq_true.mpr ⟨p, hm, by simp [he]⟩)
    · left
      simp at hone
      simp [hone]

/-! ### The collection loop as a fold over the consumed prefix -/

theorem collectLoop_eq_fold (events : List Event) (m : List (String × Tweet)) :
    collectLoop events m = (consumedTweets events).foldl mapInsert m := by
  induction events generalizing m with
  | nil => rfl
  | cons e rest ih =>
    cases e with
    | err => rfl
    | item t => simp only [collectLoop, consumedTweets, List.foldl_cons, ih]

theorem snd_id_fold (ts : List Tweet) (m : List (String × Tweet))
    (h : ∀ p ∈ m, (Prod.snd p).id = p.1) :
    ∀ p ∈ ts.foldl mapInsert m, (Prod.snd p).id = p.1 := by
  induction ts generalizing m with
  | nil => simpa using h
  | cons t rest ih => exact ih _ (snd_id_mapInsert m t h)

theorem nodup_keys_mapInsert (m : List (String × Tweet)) (t : Tweet)
    (h : (m.map Prod.fst).Nodup) :
    ((mapInsert m t).map Prod.fst).Nodup := by
  rw [keys_mapInsert]
  split_ifs with hc
  · exact h
  · rw [List.nodup_append]
    refine ⟨h, List.nodup_singleton _, ?_⟩
    intro i hi hisingle
    simp at hisingle
    exact hc (hisingle ▸ hi)

theorem nodup_keys_fold (ts : List Tweet) (m : List (String × Tweet))
    (h : (m.map Prod.fst).Nodup) :
    ((ts.foldl mapInsert m).map Prod.fst).Nodup := by
  induction ts generalizing m with
  | nil => simpa using h
  | cons t rest ih => exact ih _ (nodup_keys_mapInsert m t h)

theorem length_fold (ts : List Tweet) (m : List (String × Tweet)) :
    (ts.foldl mapInsert m).length ≤ m.length + ts.length := by
  induction ts generalizing m with
  | nil => simp
  | cons t rest ih =>
    calc ((t :: rest).foldl mapInsert m).length
        = (rest.foldl mapInsert (mapInsert m t)).length := rfl
      _ ≤ (mapInsert m t).length + rest.length := ih _
      _ ≤ m.length + 1 + rest.length := by
          have := length_mapInsert m t
          omega
      _ = m.length + (t :: rest).length := by rw [List.length_cons]; omega

/-! ### Key order: first-occurrence order -/

/-- The effect of one `Map.set` on the key list. -/
def insertFirst (l : List String) (i : String) : List String :=
  if i ∈ l then l else l ++ [i]

theorem keys_fold (ts : List Tweet) (m : List (String × Tweet)) :
    (ts.foldl mapInsert m).map Prod.fst
      = (ts.map (fun t => t.id)).foldl insertFirst (m.map Prod.fst) := by
  induction ts generalizing m with
  | nil => rfl
  | cons t rest ih =>
    simp only [List.foldl_cons, List.map_cons]
    rw [ih, keys_mapInsert]
    rfl

theorem foldl_insertFirst (ids : List String) (acc : List String) :
    ids.foldl insertFirst acc
      = acc ++ (firstSeenIds ids).filter (fun j => decide (j ∉ acc)) := by
  induction ids generalizing acc with
  | nil => simp [firstSeenIds]
  | cons i rest ih =>
    simp only [List.foldl_cons, firstSeenIds]
    by_cases hi : i ∈ acc
    · rw [show insertFirst acc i = acc from if_pos hi, ih]
      congr 1
      rw [List.filter_cons_of_neg (by simp [hi]), List.filter_filter]
      apply List.filter_congr
      intro j _
      by_cases hj : j ∈ acc
      · simp [hj]
      · simp [hj]
        intro he
        exact absurd (he ▸ hi) hj
    · rw [show insertFirst acc i = acc ++ [i] from if_neg hi, ih,
        List.filter_cons_of_pos (by simp [hi]), List.filter_filter, List.append_assoc,
        List.singleton_append]
      congr 1
      congr 1
      apply List.filter_congr
      intro j _
      by_cases hj : j ∈ acc <;> by_cases hji : j = i <;>
        simp [hj, hji, List.mem_append]

/-- C3: for every input sequence (including one that raises mid-iteration),
the collector's output has pairwise-distinct ids, its length is at most the
number of items consumed from the sequence, and its order is the insertion
order of each id's first occurrence. -/
theorem collector_output_dedup (events : List Event) :
    ((collectTweets events).map (fun t => t.id)).Nodup
      ∧ (collectTweets events).length ≤ (consumedTweets events).length
      ∧ (collectTweets events).map (fun t => t.id)
          = firstSeenIds ((consumedTweets events).map (fun t => t.id)) := by
  have hids : (collectTweets events).map (fun t => t.id)
      = ((consumedTweets events).foldl mapInsert []).map Prod.fst := by
    unfold collectTweets
    rw [collectLoop_eq_fold, List.map_map]
    exact List.map_congr_left (fun p hp => snd_id_fold _ [] (by simp) p hp)
  refine ⟨?_, ?_, ?_⟩
  · rw [hids]
    exact nodup_keys_fold _ [] (by simp)
  · unfold collectTweets
    rw [collectLoop_eq_fold]
    simpa using length_fold (consumedTweets events) []
  · rw [hids, keys_fold]
    simpa using foldl_insertFirst ((consumedTweets events).map (fun t => t.id)) []

/-! ### Which instance of a duplicated id survives -/

theorem fold_last_seen (ts : List Tweet) (m : List (String × Tweet)) (p : String × Tweet)
    (hp : p ∈ ts.foldl mapInsert m) :
    lastWithId ts p.1 = some p.2 ∨ (lastWithId ts p.1 = none ∧ p ∈ m) := by
  induction ts generalizing m with
  | nil =>
    right
    exact ⟨rfl, by simpa using hp⟩
  | cons t rest ih =>
    rcases ih (mapInsert m t) (by simpa using hp) with hlast | ⟨hnone, hpm⟩
    · left
      unfold lastWithId at hlast ⊢
      by_cases hti : t.id = p.1
      · rw [List.filter_cons_of_pos (by simp [hti])]
        cases hfr : rest.filter (fun x => decide (x.id = p.1)) with
        | nil => rw [hfr] at hlast; cases hlast
        | cons a as => rw [hfr] at hlast; rw [List.getLast?_cons_cons]; exact hlast
      · rw [List.filter_cons_of_neg (by simp [hti])]
        exact hlast
    · have hfr : rest.filter (fun x => decide (x.id = p.1)) = [] :=
        List.getLast?_eq_none_iff.mp hnone
      rcases mem_mapInsert m t p hpm with ⟨hk, hv⟩ | ⟨hk, hm⟩
      · left
        unfold lastWithId
        rw [List.filter_cons_of_pos (by simp [hk]), hfr, hv]
        rfl
      · right
        refine ⟨?_, hm⟩
        unfold lastWithId
        rw [List.filter_cons_of_neg (by simp; exact fun h => hk h.symm), hfr]
        rfl

/-- C6 is false of the code: a JS `Map.set` on an existing key overwrites the
stored value, so of two posts sharing an id the collector keeps the
**last-seen** instance, not the first-seen one as claimed. -/
theorem collector_first_seen_cex :
    collectTweets [Event.item tA, Event.item tB] = [tB]
      ∧ tA ∉ collectTweets [Event.item tA, Event.item tB]
      ∧ tA.id = tB.id ∧ tA ≠ tB := by
  decide

/-- C6 (amended): when the input yields several posts with the same id, the
collector's output contains the last-seen instance of that id (earlier
duplicates are silently overwritten, the id keeping its first-occurrence
position): every output element is the last consumed item bearing its id. -/
theorem collector_keeps_last_seen (events : List Event) (t : Tweet)
    (h : t ∈ collectTweets events) :
    lastWithId (consumedTweets events) t.id = some t := by
  unfold collectTweets at h
  rcases List.mem_map.mp h with ⟨p, hp, rfl⟩
  rw [collectLoop_eq_fold] at hp
  have hid : p.2.id = p.1 := snd_id_fold _ [] (by simp) p hp
  rcases fold_last_seen (consumedTweets events) [] p hp with hlast | ⟨_, hmem⟩
  · rwa [hid]
  · cases hmem

/-- Witness for `collector_keeps_last_seen`: on a concrete stream repeating
id "1", the surviving output element for that id is the last one consumed. -/
theorem collector_keeps_last_seen_witness :
    lastWithId (consumedTweets [Event.item tA, Event.item tB, Event.item tC]) tB.id
      = some tB :=
  collector_keeps_last_seen [Event.item tA, Event.item tB, Event.item tC] tB (by decide)

end Scraper
